import Mathlib

/-!
Shallow embedding of the chrome-mcp-wrapper core (session registry,
dialog-detection monitor, MCP tool-call client) and proofs about it.

Conventions of the embedding:
* JavaScript objects become Lean structures; method calls become pure
  functions threading the receiver state explicitly.
* The `Map<string, ChromeSession>` of `SessionManager` becomes an
  association list in insertion order (JS `Map` preserves insertion
  order; `Map.set` of a fresh key appends, `Map.delete` removes the
  unique entry for the key).
* JS numbers become `ℚ`; tab ids become `Int`; byte buffers become
  `List Nat` (only their length is ever inspected by the code).
* `async` methods of this code base run their bodies atomically for the
  purposes of the modelled state (none of the interleavings the source
  permits are observable through the pure task functions used here), so
  they are embedded as ordinary state transformers.
* Thrown JS exceptions become `Except` results; where the source can
  mutate `this` before throwing, the method instead returns the new
  state paired with an `Except` outcome.
* External effects (the MCP transport, screen capture) enter as
  explicit oracle arguments describing the outcome of the effect.
-/

/-! ## ChromeSession (src/session/ChromeSession.ts) -/

/-- State of a `ChromeSession` object: the immutable `sessionId` plus the
`tabId: number | null` field. -/
structure ChromeSession where
  sessionId : String
  tabId : Option Int
deriving DecidableEq, Repr

/-- `new ChromeSession(sessionId)`: `tabId` starts out `null`. -/
def mkChromeSession (sessionId : String) : ChromeSession :=
  ⟨sessionId, none⟩

/-- `getSessionId()`. -/
def ChromeSession.getSessionId (s : ChromeSession) : String :=
  s.sessionId

/-- `getTabId()`: returns `number | null`. -/
def ChromeSession.getTabId (s : ChromeSession) : Option Int :=
  s.tabId

/-- `setTabId(tabId)`: value-level form of the in-place mutation. -/
def ChromeSession.setTabId (s : ChromeSession) (tabId : Int) : ChromeSession :=
  { s with tabId := some tabId }

/-! ## SessionManager (src/session/SessionManager.ts) -/

/-- State of a `SessionManager`: the name-to-session `Map` (as an
association list in insertion order) and the auto-naming counter. -/
structure SessionManager where
  sessions : List (String × ChromeSession)
  sessionCounter : Nat
deriving DecidableEq, Repr

/-- `new SessionManager()`. -/
def SessionManager.empty : SessionManager :=
  ⟨[], 0⟩

/-- Errors thrown by `SessionManager` methods, distinguished the way the
source distinguishes them through their `Error` messages, plus a wrapper
for errors thrown by caller-supplied task functions. -/
inductive SMError where
  /-- `Session "<id>" already exists` -/
  | duplicateSession (sessionId : String)
  /-- `Number of sessions (<n>) must match number of tasks (<m>)` -/
  | arityMismatch (numSessions numTasks : Nat)
  /-- an exception thrown by a task function itself -/
  | taskError (msg : String)
deriving DecidableEq, Repr

/-- `this.sessions.has(sessionId)`. -/
def SessionManager.hasSession (m : SessionManager) (sessionId : String) : Bool :=
  m.sessions.any fun p => p.1 == sessionId

/-- `this.sessions.get(name) || null` (method `getSession`). -/
def SessionManager.getSession (m : SessionManager) (name : String) : Option ChromeSession :=
  (m.sessions.find? fun p => p.1 == name).map fun p => p.2

/-- `getSessionCount()`. -/
def SessionManager.getSessionCount (m : SessionManager) : Nat :=
  m.sessions.length

/-- `getAllSessions()`: a snapshot copy (value semantics make the copy
implicit). -/
def SessionManager.getAllSessions (m : SessionManager) : List (String × ChromeSession) :=
  m.sessions

/-- `createSession(name?)`. `name || \`session-${this.sessionCounter++}\``:
the counter is read and incremented exactly when `name` is falsy
(`undefined` or the empty string), and this happens before the duplicate
check, so the counter increment survives even when the method then
throws. Returns the mutated manager together with the thrown error or
the created session. -/
def SessionManager.createSession (m : SessionManager) (name : Option String) :
    SessionManager × Except SMError ChromeSession :=
  let autoName : Bool :=
    match name with
    | none => true
    | some n => n == ""
  let sessionId : String :=
    match name with
    | none => "session-" ++ toString m.sessionCounter
    | some n => if n == "" then "session-" ++ toString m.sessionCounter else n
  let m1 := if autoName then { m with sessionCounter := m.sessionCounter + 1 } else m
  if m1.hasSession sessionId then
    (m1, .error (.duplicateSession sessionId))
  else
    ({ m1 with sessions := m1.sessions ++ [(sessionId, mkChromeSession sessionId)] },
     .ok (mkChromeSession sessionId))

/-- `removeSession(name)`: `this.sessions.delete(name)`; removing a
missing name is a non-fatal no-op. Keys are unique in any manager built
through `createSession`, so deleting the entry of a key coincides with
filtering it out. -/
def SessionManager.removeSession (m : SessionManager) (name : String) : SessionManager :=
  { m with sessions := m.sessions.filter fun p => p.1 != name }

/-- `clearAll()`. -/
def SessionManager.clearAll (m : SessionManager) : SessionManager :=
  { m with sessions := [], sessionCounter := 0 }

/-- Wraps the outcome of a caller-supplied task (which may throw its own
JS error, carried as a message) into the manager-level error type. -/
def liftTaskResult {α : Type} : Except String α → Except SMError α
  | .ok v => .ok v
  | .error msg => .error (.taskError msg)

/-- Body of one `tasks.map(async (task, index) => ...)` callback of
`runParallel`: create the ephemeral session `parallel-<index>` (a throw
here rejects this task's promise with the manager untouched), run the
task with it, and in a `finally` remove the session again whatever the
task's outcome. -/
def SessionManager.runParallelStep {α : Type} (m : SessionManager)
    (task : ChromeSession → Except String α) (index : Nat) :
    SessionManager × Except SMError α :=
  match m.createSession (some ("parallel-" ++ toString index)) with
  | (m1, .error e) => (m1, .error e)
  | (m1, .ok session) =>
      (m1.removeSession session.getSessionId, liftTaskResult (task session))

/-- The fan-out of `runParallel`: every callback runs against the shared
manager; with task functions that are pure in the manager the concurrent
interleaving is observationally the left-to-right order used here. -/
def SessionManager.runParallelAux {α : Type} (m : SessionManager)
    (tasks : List (ChromeSession → Except String α)) (index : Nat) :
    SessionManager × List (Except SMError α) :=
  match tasks with
  | [] => (m, [])
  | task :: rest =>
      let s1 := m.runParallelStep task index
      let s2 := s1.1.runParallelAux rest (index + 1)
      (s2.1, s1.2 :: s2.2)

/-- `Promise.all` over the settled per-task outcomes: all fulfilled gives
the ordered value list, otherwise the collection rejects with a failure
(the per-task cleanup has already run for every task by then). -/
def collectResults {α : Type} : List (Except SMError α) → Except SMError (List α)
  | [] => .ok []
  | .error e :: _ => .error e
  | .ok v :: rest =>
      match collectResults rest with
      | .ok vs => .ok (v :: vs)
      | .error e => .error e

/-- `runParallel(tasks)`. -/
def SessionManager.runParallel {α : Type} (m : SessionManager)
    (tasks : List (ChromeSession → Except String α)) :
    SessionManager × Except SMError (List α) :=
  let s := m.runParallelAux tasks 0
  (s.1, collectResults s.2)

/-- Body of one `runParallelWithSessions` callback: resolve the named
session, lazily creating it when absent, then run the task with it (no
cleanup: caller-specified sessions persist). -/
def SessionManager.runPWSStep {α : Type} (m : SessionManager) (name : String)
    (task : ChromeSession → Except String α) :
    SessionManager × Except SMError α :=
  match m.getSession name with
  | some session => (m, liftTaskResult (task session))
  | none =>
      match m.createSession (some name) with
      | (m1, .ok session) => (m1, liftTaskResult (task session))
      | (m1, .error e) => (m1, .error e)

/-- The fan-out of `runParallelWithSessions` over the name/task pairs. -/
def SessionManager.runPWSAux {α : Type} (m : SessionManager)
    (pairs : List (String × (ChromeSession → Except String α))) :
    SessionManager × List (Except SMError α) :=
  match pairs with
  | [] => (m, [])
  | (name, task) :: rest =>
      let s1 := m.runPWSStep name task
      let s2 := s1.1.runPWSAux rest
      (s2.1, s1.2 :: s2.2)

/-- `runParallelWithSessions(sessionNames, tasks)`: throws the arity
mismatch error synchronously, before touching any session state. -/
def SessionManager.runParallelWithSessions {α : Type} (m : SessionManager)
    (sessionNames : List String) (tasks : List (ChromeSession → Except String α)) :
    SessionManager × Except SMError (List α) :=
  if sessionNames.length ≠ tasks.length then
    (m, .error (.arityMismatch sessionNames.length tasks.length))
  else
    let s := m.runPWSAux (sessionNames.zip tasks)
    (s.1, collectResults s.2)

/-! ## DialogDetector (src/dialog/DialogDetector.ts)

The monitor is parametric in the type `κ` of callback values: the code
never inspects a callback beyond storing it, passing it around and
comparing it against `null`, so a stored callback is an arbitrary
`Option κ` (the TypeScript annotation of `startMonitoring` promises a
non-null callback, but the runtime value flowing through
`setScreenshotInterval` can be `null`, which the embedding keeps
visible). -/

/-- Opaque byte buffer: the code only ever reads its length. -/
abbrev CaptureBuffer := List Nat

/-- `DialogDetectionOptions`: every field optional. -/
structure DialogDetectionOptions where
  screenshotInterval : Option ℚ
  diffThreshold : Option ℚ
  screenshotDir : Option String
deriving DecidableEq, Repr

/-- JS `x || d` for numbers: falsy (absent or `0`) picks the default. -/
def jsNumOr (x : Option ℚ) (d : ℚ) : ℚ :=
  match x with
  | none => d
  | some v => if v = 0 then d else v

/-- JS `x || d` for strings: falsy (absent or empty) picks the default. -/
def jsStrOr (x : Option String) (d : String) : String :=
  match x with
  | none => d
  | some v => if v = "" then d else v

/-- `DialogDetectionResult` delivered to the detection callback. -/
structure DialogDetectionResult where
  detected : Bool
  screenshotPath : Option String
  timestamp : String
deriving DecidableEq, Repr

/-- State of a `DialogDetector` object. `monitorTimer` records whether
the repeating `setInterval` timer is live. -/
structure DialogDetector (κ : Type) where
  screenshotInterval : ℚ
  diffThreshold : ℚ
  screenshotDir : String
  monitoring : Bool
  monitorTimer : Bool
  previousScreenshot : Option CaptureBuffer
  detectionCallback : Option κ
deriving DecidableEq, Repr

/-- `new DialogDetector(options?)`: each option goes through `||` with
its default (`5000`, `0.1`, `./screenshots`). -/
def mkDialogDetector (κ : Type) (options : Option DialogDetectionOptions) :
    DialogDetector κ :=
  { screenshotInterval := jsNumOr (options.bind fun o => o.screenshotInterval) 5000
    diffThreshold := jsNumOr (options.bind fun o => o.diffThreshold) (1 / 10)
    screenshotDir := jsStrOr (options.bind fun o => o.screenshotDir) "./screenshots"
    monitoring := false
    monitorTimer := false
    previousScreenshot := none
    detectionCallback := none }

/-- `takeScreenshot()`: the current implementation returns the dummy
`Buffer.from('')`, the empty buffer. -/
def takeScreenshot : CaptureBuffer := []

/-- `startMonitoring(callback)`: no-op when already monitoring (with a
warning); otherwise set `monitoring`, store the callback, capture the
baseline and start the repeating timer. The parameter is the runtime
value of the callback argument, which `setScreenshotInterval` can make
`null`. -/
def DialogDetector.startMonitoring {κ : Type} (d : DialogDetector κ)
    (callback : Option κ) : DialogDetector κ :=
  if d.monitoring then d
  else
    { d with
      monitoring := true
      detectionCallback := callback
      previousScreenshot := some takeScreenshot
      monitorTimer := true }

/-- `stopMonitoring()`: no-op when not monitoring (with a warning);
otherwise clear the flag, cancel the timer, drop the baseline and the
callback. -/
def DialogDetector.stopMonitoring {κ : Type} (d : DialogDetector κ) : DialogDetector κ :=
  if !d.monitoring then d
  else
    { d with
      monitoring := false
      monitorTimer := false
      previousScreenshot := none
      detectionCallback := none }

/-- `detectDialog(prev, current)`: byte-length divergence relative to the
larger buffer, compared strictly against `this.diffThreshold`. -/
def DialogDetector.detectDialog {κ : Type} (d : DialogDetector κ)
    (prev current : CaptureBuffer) : Bool :=
  let prevSize : ℚ := prev.length
  let currentSize : ℚ := current.length
  let sizeDiff : ℚ := |prevSize - currentSize| / max prevSize currentSize
  decide (sizeDiff > d.diffThreshold)

/-- `new Date().toISOString().replace(/[:.]/g, '-')`. -/
def sanitizeTimestamp (t : String) : String :=
  String.map (fun c => if c = ':' ∨ c = '.' then '-' else c) t

/-- `saveScreenshot(screenshot)`: the artifact path
`<dir>/dialog-detected-<sanitized timestamp>.png`. -/
def DialogDetector.saveScreenshot {κ : Type} (d : DialogDetector κ) (now : String) : String :=
  d.screenshotDir ++ "/dialog-detected-" ++ sanitizeTimestamp now ++ ".png"

/-- `checkForDialog()`, one timer tick: capture the current state; when a
baseline exists and `detectDialog` fires, build the detection result
(delivered to the callback when one is stored); the current capture
always becomes the new baseline. `now` is the tick's wall-clock ISO
timestamp. -/
def DialogDetector.checkForDialog {κ : Type} (d : DialogDetector κ) (now : String) :
    DialogDetector κ × Option DialogDetectionResult :=
  let currentScreenshot := takeScreenshot
  let ev : Option DialogDetectionResult :=
    match d.previousScreenshot with
    | some prev =>
        if d.detectDialog prev currentScreenshot then
          some { detected := true
                 screenshotPath := some (d.saveScreenshot now)
                 timestamp := now }
        else none
    | none => none
  ({ d with previousScreenshot := some currentScreenshot }, ev)

/-- `isMonitoring()`. -/
def DialogDetector.isMonitoring {κ : Type} (d : DialogDetector κ) : Bool :=
  d.monitoring

/-- `setScreenshotInterval(interval)`: store the interval; when
monitoring with a stored callback, restart. `stopMonitoring()` runs to
completion (its body has no suspension point) before the argument
`this.detectionCallback` of the `startMonitoring` call is read — so the
restart reads the value `stopMonitoring` just cleared. -/
def DialogDetector.setScreenshotInterval {κ : Type} (d : DialogDetector κ)
    (interval : ℚ) : DialogDetector κ :=
  let d1 := { d with screenshotInterval := interval }
  if d1.monitoring && d1.detectionCallback.isSome then
    let d2 := d1.stopMonitoring
    d2.startMonitoring d2.detectionCallback
  else d1

/-- `setDiffThreshold(threshold)`: throws
`Threshold must be between 0 and 1` for values outside `[0, 1]` (the
throw precedes any assignment, so the state is returned unchanged);
otherwise updates the threshold in place. -/
def DialogDetector.setDiffThreshold {κ : Type} (d : DialogDetector κ)
    (threshold : ℚ) : DialogDetector κ × Except String Unit :=
  if threshold < 0 ∨ threshold > 1 then
    (d, .error "Threshold must be between 0 and 1")
  else
    ({ d with diffThreshold := threshold }, .ok ())

/-- The synchronous prefix of `startMonitoring(callback)`, up to the
suspension point `await this.takeScreenshot()`: the re-entrancy guard,
then the `monitoring = true` and callback assignments. Returns the state
together with whether a suspended continuation
(`startMonitoringResume`) was queued — the early return completes
without suspending. -/
def DialogDetector.startMonitoringSync {κ : Type} (d : DialogDetector κ)
    (callback : Option κ) : DialogDetector κ × Bool :=
  if d.monitoring then (d, false)
  else ({ d with monitoring := true, detectionCallback := callback }, true)

/-- The continuation of `startMonitoring` after
`await this.takeScreenshot()`: assign the baseline and start the
repeating timer. It runs as a queued microtask and does not re-check
`monitoring`. -/
def DialogDetector.startMonitoringResume {κ : Type} (d : DialogDetector κ) :
    DialogDetector κ :=
  { d with previousScreenshot := some takeScreenshot, monitorTimer := true }

/-- The synchronous body of `setScreenshotInterval(interval)`: store the
interval; when restarting, `stopMonitoring()` runs to completion (its
body has no suspension point) and the un-awaited
`startMonitoring(this.detectionCallback)` executes only its synchronous
prefix — its continuation stays queued behind the caller's turn.
Returns the state and whether a continuation was queued. -/
def DialogDetector.setScreenshotIntervalSync {κ : Type} (d : DialogDetector κ)
    (interval : ℚ) : DialogDetector κ × Bool :=
  let d1 := { d with screenshotInterval := interval }
  if d1.monitoring && d1.detectionCallback.isSome then
    let d2 := d1.stopMonitoring
    d2.startMonitoringSync d2.detectionCallback
  else (d1, false)

/-- A monitor object together with the number of `startMonitoring`
continuations currently suspended at `await this.takeScreenshot()`
(queued microtasks, each of which will run `startMonitoringResume`). -/
structure DialogMachine (κ : Type) where
  obj : DialogDetector κ
  pendingResumes : Nat
deriving DecidableEq, Repr

/-- Reachable monitor states, microtask interleavings included: freshly
constructed, or the result of the synchronous phase of a public
operation, of a suspended `startMonitoring` continuation resuming, or of
a timer tick (only while the repeating timer is live). A caller that
awaits `startMonitoring` performs `startSync` immediately followed by
`resume`; the un-awaited restart inside `setScreenshotInterval` leaves
its continuation pending, and the caller's next synchronous operation
may run before it. `checkForDialog` stays a single step: it reads and
writes only `previousScreenshot`, never the callback or the `monitoring`
flag. -/
inductive DialogTrace (κ : Type) : DialogMachine κ → Prop where
  | init (options : Option DialogDetectionOptions) :
      DialogTrace κ ⟨mkDialogDetector κ options, 0⟩
  | startSync (s : DialogMachine κ) (callback : Option κ) :
      DialogTrace κ s →
      DialogTrace κ ⟨(s.obj.startMonitoringSync callback).1,
        s.pendingResumes + (if (s.obj.startMonitoringSync callback).2 then 1 else 0)⟩
  | resume (s : DialogMachine κ) :
      DialogTrace κ s → 0 < s.pendingResumes →
      DialogTrace κ ⟨s.obj.startMonitoringResume, s.pendingResumes - 1⟩
  | stop (s : DialogMachine κ) :
      DialogTrace κ s → DialogTrace κ ⟨s.obj.stopMonitoring, s.pendingResumes⟩
  | setIntervalStep (s : DialogMachine κ) (interval : ℚ) :
      DialogTrace κ s →
      DialogTrace κ ⟨(s.obj.setScreenshotIntervalSync interval).1,
        s.pendingResumes + (if (s.obj.setScreenshotIntervalSync interval).2 then 1 else 0)⟩
  | setThresholdStep (s : DialogMachine κ) (threshold : ℚ) :
      DialogTrace κ s →
      DialogTrace κ ⟨(s.obj.setDiffThreshold threshold).1, s.pendingResumes⟩
  | tick (s : DialogMachine κ) (now : String) :
      DialogTrace κ s → s.obj.monitorTimer = true →
      DialogTrace κ ⟨(s.obj.checkForDialog now).1, s.pendingResumes⟩

/-! ## ChromeMCPClient (src/mcp/tools.ts)

The MCP SDK client object and the transport are external collaborators;
their observable outcomes enter as oracle arguments: `connectErr` is the
error message when `client.connect(transport)` rejects (`none` when it
resolves), and `RemoteOutcome` is what `client.callTool(...)` does. -/

/-- One element of `CallToolResult.content`: the code only distinguishes
items with `type === 'text'` (reading their `text`) from everything
else. -/
inductive ContentItem where
  | text (s : String)
  | other (payload : String)
deriving DecidableEq, Repr

/-- The MCP `CallToolResult` as far as the code reads it: the `isError`
flag and the content list. -/
structure CallToolResult where
  isError : Bool
  content : List ContentItem
deriving DecidableEq, Repr

/-- Outcome of the remote `client.callTool` invocation: the promise
rejects (transport failure, 120 s timeout expiry, ...) with a message,
or resolves with a `CallToolResult`. -/
inductive RemoteOutcome where
  | throws (msg : String)
  | returns (r : CallToolResult)
deriving DecidableEq, Repr

/-- `data` of an `MCPToolResult`: either the joined text segments or the
raw content list (used when the joined text is empty/falsy). -/
inductive MCPData where
  | str (s : String)
  | raw (content : List ContentItem)
deriving DecidableEq, Repr

/-- `MCPToolResult`. -/
structure MCPToolResult where
  success : Bool
  data : Option MCPData
  error : Option String
deriving DecidableEq, Repr

/-- State of a `ChromeMCPClient`: the endpoint, the `client` handle
(`null` until assigned; only its presence matters to the code modelled
here) and the `isConnected` flag. -/
structure ChromeMCPClient where
  serverUrl : String
  client : Option Unit
  isConnected : Bool
deriving DecidableEq, Repr

/-- The default constructor argument. -/
def defaultServerUrl : String := "http://127.0.0.1:12306/mcp"

/-- `new ChromeMCPClient(serverUrl)`. -/
def mkChromeMCPClient (serverUrl : String) : ChromeMCPClient :=
  ⟨serverUrl, none, false⟩

/-- `ensureConnection()`: early return when connected with a client;
otherwise assign a fresh `Client` to `this.client` first, then connect.
On connect failure the catch sets `isConnected = false` and rethrows —
`this.client` keeps the freshly assigned handle. -/
def ChromeMCPClient.ensureConnection (s : ChromeMCPClient)
    (connectErr : Option String) : ChromeMCPClient × Except String Unit :=
  if s.isConnected && s.client.isSome then
    (s, .ok ())
  else
    let s1 := { s with client := some () }
    match connectErr with
    | none => ({ s1 with isConnected := true }, .ok ())
    | some msg => ({ s1 with isConnected := false }, .error msg)

/-- The `type === 'text'` filter followed by the `.text` projection. -/
def contentTexts : List ContentItem → List String
  | [] => []
  | .text s :: rest => s :: contentTexts rest
  | .other _ :: rest => contentTexts rest

/-- Stands in for `JSON.stringify(callResult.content)`: an opaque
serialization whose exact rendering nothing depends on. -/
def serializeContent (content : List ContentItem) : String :=
  String.intercalate ", "
    (content.map fun item =>
      match item with
      | .text s => "text " ++ s
      | .other payload => "item " ++ payload)

/-- `callTool(toolName, params)`: ensure the connection (any throw lands
in the surrounding catch), null-check the client, issue the remote call,
then normalize: protocol-level `isError` becomes a failure value, and on
success the text segments are joined with newlines (`textContent ||
callResult.content` falls back to the raw content when the joined text
is empty). Every outcome is returned as a value. -/
def ChromeMCPClient.callTool (s : ChromeMCPClient) (toolName : String)
    (params : String) (connectErr : Option String) (remote : RemoteOutcome) :
    ChromeMCPClient × MCPToolResult :=
  match s.ensureConnection connectErr with
  | (s1, .error msg) => (s1, ⟨false, none, some msg⟩)
  | (s1, .ok ()) =>
    match s1.client with
    | none => (s1, ⟨false, none, some "MCP client is not initialized"⟩)
    | some _ =>
      match remote with
      | .throws msg => (s1, ⟨false, none, some msg⟩)
      | .returns r =>
          if r.isError then
            (s1, ⟨false, none, some ("Tool execution failed: " ++ serializeContent r.content)⟩)
          else
            let textContent := String.intercalate "\n" (contentTexts r.content)
            (s1, ⟨true,
                  some (if textContent = "" then .raw r.content else .str textContent),
                  none⟩)

/-- `close()`: when a client is present, close it and reset both fields;
idempotent. -/
def ChromeMCPClient.close (s : ChromeMCPClient) : ChromeMCPClient :=
  if s.client.isSome then { s with client := none, isConnected := false } else s

/-- Reachable `ChromeMCPClient` states: freshly constructed, or the
result of `ensureConnection` (with either connect outcome), `callTool`
(with any oracle outcomes) or `close` on a reachable state. -/
inductive ClientReachable : ChromeMCPClient → Prop where
  | init (url : String) : ClientReachable (mkChromeMCPClient url)
  | ensure (s : ChromeMCPClient) (connectErr : Option String) :
      ClientReachable s → ClientReachable (s.ensureConnection connectErr).1
  | call (s : ChromeMCPClient) (toolName params : String)
      (connectErr : Option String) (remote : RemoteOutcome) :
      ClientReachable s → ClientReachable (s.callTool toolName params connectErr remote).1
  | closeStep (s : ChromeMCPClient) :
      ClientReachable s → ClientReachable s.close

/-! ## Theorems: DialogDetector -/

/-- Closed form of `setScreenshotInterval`: when the restart fires, the
resulting state is monitoring with a fresh baseline, a live timer and —
because the restart reads `this.detectionCallback` after `stopMonitoring`
cleared it — no callback. -/
theorem setScreenshotInterval_eq {κ : Type} (d : DialogDetector κ) (i : ℚ) :
    d.setScreenshotInterval i =
      if d.monitoring && d.detectionCallback.isSome then
        { d with screenshotInterval := i, monitoring := true, monitorTimer := true,
                 previousScreenshot := some takeScreenshot, detectionCallback := none }
      else { d with screenshotInterval := i } := by
  cases hm : d.monitoring with
  | false => simp [DialogDetector.setScreenshotInterval, hm]
  | true =>
      cases hc : d.detectionCallback.isSome with
      | false => simp [DialogDetector.setScreenshotInterval, hm, hc]
      | true =>
          simp [DialogDetector.setScreenshotInterval, DialogDetector.stopMonitoring,
            DialogDetector.startMonitoring, hm, hc]

/-- Awaiting `startMonitoring` — the synchronous prefix immediately
followed by its continuation — is exactly the atomic `startMonitoring`
used elsewhere in this development. -/
theorem startMonitoring_eq_sync_resume {κ : Type} (d : DialogDetector κ)
    (callback : Option κ) :
    d.startMonitoring callback =
      (if (d.startMonitoringSync callback).2 then
        (d.startMonitoringSync callback).1.startMonitoringResume
       else (d.startMonitoringSync callback).1) := by
  cases hm : d.monitoring with
  | true => simp [DialogDetector.startMonitoring, DialogDetector.startMonitoringSync, hm]
  | false =>
      simp [DialogDetector.startMonitoring, DialogDetector.startMonitoringSync,
        DialogDetector.startMonitoringResume, hm]

/-- Closed form of the synchronous body of `setScreenshotInterval`: the
restart leaves `monitoring` set with no callback, no baseline and no
timer, its continuation still pending. -/
theorem setScreenshotIntervalSync_eq {κ : Type} (d : DialogDetector κ) (i : ℚ) :
    d.setScreenshotIntervalSync i =
      if d.monitoring && d.detectionCallback.isSome then
        ({ d with screenshotInterval := i, monitoring := true, monitorTimer := false,
                  previousScreenshot := none, detectionCallback := none }, true)
      else ({ d with screenshotInterval := i }, false) := by
  cases hm : d.monitoring with
  | false => simp [DialogDetector.setScreenshotIntervalSync, hm]
  | true =>
      cases hc : d.detectionCallback.isSome with
      | false => simp [DialogDetector.setScreenshotIntervalSync, hm, hc]
      | true =>
          simp [DialogDetector.setScreenshotIntervalSync, DialogDetector.stopMonitoring,
            DialogDetector.startMonitoringSync, hm, hc]

/-- Running the restart's continuation immediately after the synchronous
body recovers the atomic `setScreenshotInterval`: the machine steps
refine the atomic operations. -/
theorem setScreenshotInterval_eq_sync_resume {κ : Type} (d : DialogDetector κ) (i : ℚ) :
    d.setScreenshotInterval i =
      (if (d.setScreenshotIntervalSync i).2 then
        (d.setScreenshotIntervalSync i).1.startMonitoringResume
       else (d.setScreenshotIntervalSync i).1) := by
  rw [setScreenshotInterval_eq, setScreenshotIntervalSync_eq]
  by_cases h : (d.monitoring && d.detectionCallback.isSome) = true
  · simp [h, DialogDetector.startMonitoringResume]
  · simp [h]

/-- The callback half of the monitor invariant survives every
interleaving: each synchronous block that stores a callback sets
`monitoring` in the same block, each block that clears `monitoring`
clears the callback with it, and resumes and ticks touch neither. -/
theorem dialogMachine_callback_inv {κ : Type} :
    ∀ s : DialogMachine κ, DialogTrace κ s →
      s.obj.detectionCallback.isSome → s.obj.monitoring = true := by
  intro s h
  induction h with
  | init options => simp [mkDialogDetector]
  | startSync s callback hr ih =>
      simp only [DialogDetector.startMonitoringSync]
      split
      · exact ih
      · simp
  | resume s hr hp ih => simpa [DialogDetector.startMonitoringResume] using ih
  | stop s hr ih =>
      simp only [DialogDetector.stopMonitoring]
      split
      · exact ih
      · simp
  | setIntervalStep s interval hr ih =>
      dsimp only
      rw [setScreenshotIntervalSync_eq]
      split
      · simp
      · simpa using ih
  | setThresholdStep s threshold hr ih =>
      simp only [DialogDetector.setDiffThreshold]
      split
      · exact ih
      · simpa using ih
  | tick s now hr htimer ih => simpa [DialogDetector.checkForDialog] using ih

/-- A monitor freshly started with callback `7`. -/
def startedMonitor : DialogDetector Nat :=
  (mkDialogDetector Nat none).startMonitoring (some 7)

/-- The stable state of the interleaving that breaks the baseline
invariant: start the monitor with callback `7` (awaited); call
`setScreenshotInterval 8000`, whose un-awaited restart suspends at the
baseline capture after setting `monitoring` and losing the callback;
call `stopMonitoring()` in the same turn (its synchronous body completes
before the queued continuation runs); then let the suspended
continuation resume — it re-assigns the baseline and starts a timer
although `monitoring` is `false`. -/
def leakedMonitor : DialogMachine Nat :=
  ⟨{ screenshotInterval := 8000
     diffThreshold := 1 / 10
     screenshotDir := "./screenshots"
     monitoring := false
     monitorTimer := true
     previousScreenshot := some takeScreenshot
     detectionCallback := none }, 0⟩

/-- `leakedMonitor` is reachable. -/
theorem leakedMonitor_reachable : DialogTrace Nat leakedMonitor := by
  have t0 : DialogTrace Nat ⟨mkDialogDetector Nat none, 0⟩ := DialogTrace.init none
  have t1 := DialogTrace.startSync _ (some 7) t0
  have t2 := DialogTrace.resume _ t1 (by decide)
  have t3 := DialogTrace.setIntervalStep _ 8000 t2
  have t4 := DialogTrace.stop _ t3
  have t5 := DialogTrace.resume _ t4 (by decide)
  exact t5

/-- C7 (counterexample): the claimed baseline invariant fails in the
program — `leakedMonitor` is reachable through the un-awaited restart
interleaving and holds a baseline capture while `monitoring` is
false. -/
theorem dialog_monitor_invariants_counterexample :
    ¬ ∀ s : DialogMachine Nat, DialogTrace Nat s →
        (s.obj.previousScreenshot.isSome → s.obj.monitoring = true) := by
  intro hall
  have h := hall leakedMonitor leakedMonitor_reachable rfl
  simp [leakedMonitor] at h

/-- C7 (amended): in every reachable monitor state — microtask
interleavings of the un-awaited restart included — the callback is
present only while `monitoring` is true; `startMonitoring` on an
already-monitoring state is a complete no-op (state unchanged, no
suspended continuation, callback retained), and `stopMonitoring` on a
monitoring state sets `monitoring` to false and clears the timer,
baseline and callback. The baseline half of the original invariant is
dropped: a `stopMonitoring` overtaking the suspended restart leaves
`previousScreenshot` present while `monitoring` is false
(`leakedMonitor`). -/
theorem dialog_monitor_invariants_amended (κ : Type) :
    (∀ s : DialogMachine κ, DialogTrace κ s →
      (s.obj.detectionCallback.isSome → s.obj.monitoring = true)) ∧
    (∀ (d : DialogDetector κ) (callback : Option κ), d.monitoring = true →
      d.startMonitoringSync callback = (d, false)) ∧
    (∀ (d : DialogDetector κ) (callback : Option κ), d.monitoring = true →
      d.startMonitoring callback = d) ∧
    (∀ d : DialogDetector κ, d.monitoring = true →
      d.stopMonitoring =
        { d with monitoring := false, monitorTimer := false,
                 previousScreenshot := none, detectionCallback := none }) := by
  refine ⟨dialogMachine_callback_inv, fun d callback hm => ?_, fun d callback hm => ?_,
    fun d hm => ?_⟩
  · simp [DialogDetector.startMonitoringSync, hm]
  · simp [DialogDetector.startMonitoring, hm]
  · simp [DialogDetector.stopMonitoring, hm]

/-- Witness for `dialog_monitor_invariants_amended` at the machine state
of an awaited `startMonitoring` with callback `7`. -/
theorem dialog_monitor_invariants_amended_witness :
    (startedMonitor.detectionCallback.isSome → startedMonitor.monitoring = true) ∧
    startedMonitor.startMonitoringSync (some 9) = (startedMonitor, false) ∧
    startedMonitor.startMonitoring (some 9) = startedMonitor ∧
    startedMonitor.stopMonitoring =
      { startedMonitor with monitoring := false, monitorTimer := false,
                            previousScreenshot := none, detectionCallback := none } := by
  refine ⟨?_, ?_, ?_, ?_⟩
  · exact (dialog_monitor_invariants_amended Nat).1 ⟨startedMonitor, 0⟩
      (DialogTrace.resume _ (DialogTrace.startSync _ (some 7) (DialogTrace.init none))
        (by decide))
  · exact (dialog_monitor_invariants_amended Nat).2.1 startedMonitor (some 9) rfl
  · exact (dialog_monitor_invariants_amended Nat).2.2.1 startedMonitor (some 9) rfl
  · exact (dialog_monitor_invariants_amended Nat).2.2.2 startedMonitor rfl

/-- C1 (code bug): starting a monitor with callback `7` and then calling
`setScreenshotInterval 8000` leaves the monitor monitoring with the new
interval, but the restart re-reads `this.detectionCallback` after
`stopMonitoring` has already nulled it, so the retained callback is
`none` instead of the original `some 7`. -/
theorem setScreenshotInterval_loses_callback :
    startedMonitor.detectionCallback = some 7 ∧
    (startedMonitor.setScreenshotInterval 8000).monitoring = true ∧
    (startedMonitor.setScreenshotInterval 8000).screenshotInterval = 8000 ∧
    (startedMonitor.setScreenshotInterval 8000).detectionCallback = none :=
  ⟨rfl, rfl, rfl, rfl⟩

/-- The divergence score the spec describes: absolute byte-length
difference relative to the larger of the two sizes. -/
def divergenceScore (prev current : CaptureBuffer) : ℚ :=
  |(prev.length : ℚ) - (current.length : ℚ)| /
    max (prev.length : ℚ) (current.length : ℚ)

/-- C6: for captures that are not both empty, `detectDialog` fires
exactly when the divergence score strictly exceeds `diffThreshold`; a
divergence equal to the threshold does not trigger detection. -/
theorem detectDialog_divergence_boundary (κ : Type) :
    ∀ (d : DialogDetector κ) (prev current : CaptureBuffer),
      0 < max (prev.length : ℚ) (current.length : ℚ) →
      (d.detectDialog prev current = true ↔
        divergenceScore prev current > d.diffThreshold) ∧
      (divergenceScore prev current = d.diffThreshold →
        d.detectDialog prev current = false) := by
  intro d prev current hpos
  constructor
  · simp [DialogDetector.detectDialog, divergenceScore]
  · intro he
    simp only [DialogDetector.detectDialog, divergenceScore] at he ⊢
    simp [he, decide_eq_false_iff_not, not_lt]

/-- Witness for `detectDialog_divergence_boundary`: with the default
threshold `0.1`, buffers of sizes 10 and 9 (divergence exactly `0.1`)
do not trigger, sizes 10 and 8 (divergence `0.2`) do. -/
theorem detectDialog_divergence_boundary_witness :
    (mkDialogDetector Nat none).detectDialog (List.replicate 10 0) (List.replicate 9 0)
      = false ∧
    (mkDialogDetector Nat none).detectDialog (List.replicate 10 0) (List.replicate 8 0)
      = true :=
  ⟨(detectDialog_divergence_boundary Nat (mkDialogDetector Nat none)
      (List.replicate 10 0) (List.replicate 9 0) (by norm_num)).2
      (by norm_num [divergenceScore, mkDialogDetector, jsNumOr, max_def]),
   (detectDialog_divergence_boundary Nat (mkDialogDetector Nat none)
      (List.replicate 10 0) (List.replicate 8 0) (by norm_num)).1.mpr
      (by norm_num [divergenceScore, mkDialogDetector, jsNumOr, max_def])⟩

/-- C8: `setDiffThreshold` throws the validation error for thresholds
outside `[0, 1]` with the state unchanged, and for thresholds inside
`[0, 1]` updates only `diffThreshold`, leaving the monitoring state (and
interval, timer, baseline, callback) untouched. -/
theorem setDiffThreshold_validation (κ : Type) :
    ∀ (d : DialogDetector κ) (threshold : ℚ),
      ((threshold < 0 ∨ threshold > 1) →
        d.setDiffThreshold threshold =
          (d, .error "Threshold must be between 0 and 1")) ∧
      (0 ≤ threshold → threshold ≤ 1 →
        d.setDiffThreshold threshold =
          ({ d with diffThreshold := threshold }, .ok ())) := by
  intro d threshold
  constructor
  · intro h
    simp only [DialogDetector.setDiffThreshold, if_pos h]
  · intro h0 h1
    have hno : ¬ (threshold < 0 ∨ threshold > 1) :=
      not_or.mpr ⟨not_lt.mpr h0, not_lt.mpr h1⟩
    simp only [DialogDetector.setDiffThreshold, if_neg hno]

/-- Witness for `setDiffThreshold_validation`: `1.5` is rejected with the
state unchanged, `0.5` is stored in place on a monitoring state. -/
theorem setDiffThreshold_validation_witness :
    (mkDialogDetector Nat none).setDiffThreshold (3 / 2) =
      (mkDialogDetector Nat none, .error "Threshold must be between 0 and 1") ∧
    startedMonitor.setDiffThreshold (1 / 2) =
      ({ startedMonitor with diffThreshold := 1 / 2 }, .ok ()) :=
  ⟨(setDiffThreshold_validation Nat (mkDialogDetector Nat none) (3 / 2)).1
      (Or.inr (by norm_num)),
   (setDiffThreshold_validation Nat startedMonitor (1 / 2)).2
      (by norm_num) (by norm_num)⟩

/-- C10: the constructor routes each option through JS `||`, so explicit
`0` values for `diffThreshold` and `screenshotInterval` are replaced by
the defaults `0.1` and `5000`; no options value can configure a zero
threshold through the constructor, although `setDiffThreshold` accepts
`0` as valid. -/
theorem constructor_zero_options_use_defaults (κ : Type) :
    ∀ opts : DialogDetectionOptions,
      (opts.diffThreshold = some 0 →
        (mkDialogDetector κ (some opts)).diffThreshold = 1 / 10) ∧
      (opts.screenshotInterval = some 0 →
        (mkDialogDetector κ (some opts)).screenshotInterval = 5000) ∧
      (∀ options : Option DialogDetectionOptions,
        (mkDialogDetector κ options).diffThreshold ≠ 0) ∧
      (∀ d : DialogDetector κ,
        d.setDiffThreshold 0 = ({ d with diffThreshold := 0 }, .ok ())) := by
  intro opts
  refine ⟨fun h => ?_, fun h => ?_, fun options => ?_, fun d => ?_⟩
  · simp [mkDialogDetector, h, jsNumOr]
  · simp [mkDialogDetector, h, jsNumOr]
  · cases options with
    | none => simp [mkDialogDetector, jsNumOr]
    | some o =>
        cases ho : o.diffThreshold with
        | none => simp [mkDialogDetector, jsNumOr, ho]
        | some v =>
            by_cases hv : v = 0
            · simp [mkDialogDetector, jsNumOr, ho, hv]
            · simp [mkDialogDetector, jsNumOr, ho, hv]
  · have hno : ¬ ((0 : ℚ) < 0 ∨ (0 : ℚ) > 1) := by norm_num
    simp only [DialogDetector.setDiffThreshold, if_neg hno]

/-! ## Theorems: ChromeMCPClient -/

/-- `callTool` mutates the connection state exactly as its internal
`ensureConnection` step does: every later branch leaves the state
alone. -/
theorem callTool_fst (s : ChromeMCPClient) (toolName params : String)
    (connectErr : Option String) (remote : RemoteOutcome) :
    (s.callTool toolName params connectErr remote).1 =
      (s.ensureConnection connectErr).1 := by
  unfold ChromeMCPClient.callTool
  split
  · rename_i s1 msg heq
    rw [heq]
  · rename_i s1 heq
    rw [heq]
    split
    · rfl
    · split
      · rfl
      · split <;> rfl

/-- After `ensureConnection`, a set `isConnected` flag comes with a
client handle, provided the starting state satisfied the same
implication. -/
theorem ensureConnection_handle (s : ChromeMCPClient) (connectErr : Option String)
    (ih : s.isConnected = true → s.client.isSome = true) :
    (s.ensureConnection connectErr).1.isConnected = true →
    (s.ensureConnection connectErr).1.client.isSome = true := by
  unfold ChromeMCPClient.ensureConnection
  split
  · exact ih
  · cases connectErr with
    | none => intro h2; rfl
    | some msg => intro h2; rfl

/-- C2 (amended): in every reachable client state, `isConnected = true`
implies the `client` handle is present. -/
theorem client_connected_implies_handle :
    ∀ s : ChromeMCPClient, ClientReachable s →
      s.isConnected = true → s.client.isSome = true := by
  intro s h
  induction h with
  | init url => intro h2; simp [mkChromeMCPClient] at h2
  | ensure s connectErr hr ih => exact ensureConnection_handle s connectErr ih
  | call s toolName params connectErr remote hr ih =>
      rw [callTool_fst]
      exact ensureConnection_handle s connectErr ih
  | closeStep s hr ih =>
      unfold ChromeMCPClient.close
      split
      · intro h2; simp at h2
      · exact ih

/-- C2 (counterexample): the claimed iff fails — a client whose first
connection attempt was rejected is reachable, has `isConnected = false`,
and still holds the `client` handle assigned before the failed
`connect`. -/
theorem client_handle_iff_connected_counterexample :
    ¬ ∀ s : ChromeMCPClient, ClientReachable s →
        (s.client.isSome = true ↔ s.isConnected = true) := by
  intro hall
  have hreach : ClientReachable
      ((mkChromeMCPClient defaultServerUrl).callTool "navigate" "params"
        (some "ECONNREFUSED") (.throws "connect failed")).1 :=
    ClientReachable.call _ "navigate" "params" (some "ECONNREFUSED")
      (.throws "connect failed") (ClientReachable.init defaultServerUrl)
  have h2 := hall _ hreach
  simp [ChromeMCPClient.callTool, ChromeMCPClient.ensureConnection,
    mkChromeMCPClient] at h2

/-- A client after one successful connection. -/
def connectedClient : ChromeMCPClient :=
  ((mkChromeMCPClient defaultServerUrl).ensureConnection none).1

/-- Witness for `client_connected_implies_handle` at a concrete reachable
connected state. -/
theorem client_connected_implies_handle_witness :
    connectedClient.isConnected = true ∧ connectedClient.client.isSome = true :=
  ⟨rfl,
   client_connected_implies_handle connectedClient
     (ClientReachable.ensure _ none (ClientReachable.init defaultServerUrl)) rfl⟩

/-- C4: `callTool` yields its outcome as a value with the advertised
shape — a failure result carries an error message and no data, a success
result carries data and no error (totality of the embedded function
reflects that every branch, including connect failures, is caught and
returned). -/
theorem callTool_result_shape :
    ∀ (s : ChromeMCPClient) (toolName params : String) (connectErr : Option String)
      (remote : RemoteOutcome),
      ((s.callTool toolName params connectErr remote).2.success = false →
        (s.callTool toolName params connectErr remote).2.error.isSome = true ∧
        (s.callTool toolName params connectErr remote).2.data = none) ∧
      ((s.callTool toolName params connectErr remote).2.success = true →
        (s.callTool toolName params connectErr remote).2.data.isSome = true ∧
        (s.callTool toolName params connectErr remote).2.error = none) := by
  intro s toolName params connectErr remote
  unfold ChromeMCPClient.callTool
  split
  · simp
  · split
    · simp
    · split
      · simp
      · split
        · simp
        · simp

/-- Witness for `callTool_result_shape`: a successful remote call with a
text segment produces populated data and no error. -/
theorem callTool_result_shape_witness :
    ((mkChromeMCPClient defaultServerUrl).callTool "tabs_context" "" none
        (.returns ⟨false, [.text "ok"]⟩)).2.data.isSome = true ∧
    ((mkChromeMCPClient defaultServerUrl).callTool "tabs_context" "" none
        (.returns ⟨false, [.text "ok"]⟩)).2.error = none :=
  (callTool_result_shape (mkChromeMCPClient defaultServerUrl) "tabs_context" ""
    none (.returns ⟨false, [.text "ok"]⟩)).2 rfl

/-! ## Theorems: SessionManager -/

/-- Ephemeral session names are never empty, so `createSession` treats
them as explicit names (no counter use). -/
theorem parallelName_ne_empty (t : String) : (("parallel-" ++ t) == "") = false := by
  apply beq_eq_false_iff_ne.mpr
  intro h
  have hlen := congrArg String.length h
  rw [String.length_append] at hlen
  rw [show "parallel-".length = 9 from rfl, show ("" : String).length = 0 from rfl] at hlen
  omega

/-- Deleting a name that is not in the map leaves the map unchanged. -/
theorem filter_out_absent (m : SessionManager) (sessionId : String)
    (h : m.hasSession sessionId = false) :
    m.sessions.filter (fun p => p.1 != sessionId) = m.sessions := by
  apply List.filter_eq_self.mpr
  intro p hp
  have h2 : ∀ q ∈ m.sessions, ¬ (q.1 == sessionId) = true := by
    simpa [SessionManager.hasSession] using h
  have h3 := h2 p hp
  simp only [beq_iff_eq] at h3
  simpa using h3

/-- One `runParallel` callback restores the manager exactly: either the
ephemeral create throws (no mutation), or the fresh entry is appended
and then removed by the `finally`. -/
theorem runParallelStep_fst {α : Type} (m : SessionManager)
    (task : ChromeSession → Except String α) (index : Nat) :
    (m.runParallelStep task index).1 = m := by
  unfold SessionManager.runParallelStep SessionManager.createSession
  simp only [parallelName_ne_empty]
  by_cases h : m.hasSession ("parallel-" ++ toString index) = true
  · simp [h]
  · rw [Bool.not_eq_true] at h
    simp [h, SessionManager.removeSession, ChromeSession.getSessionId, mkChromeSession,
      List.filter_append, filter_out_absent m _ h]

/-- The whole fan-out of `runParallel` restores the manager. -/
theorem runParallelAux_fst {α : Type} (tasks : List (ChromeSession → Except String α)) :
    ∀ (m : SessionManager) (index : Nat), (m.runParallelAux tasks index).1 = m := by
  induction tasks with
  | nil => intro m index; rfl
  | cons task rest ih =>
      intro m index
      simp only [SessionManager.runParallelAux]
      rw [runParallelStep_fst]
      exact ih m (index + 1)

/-- Each callback of `runParallel` runs against the restored manager, so
the outcome list is pointwise the outcome of `runParallelStep` on the
initial manager at the callback's index. -/
theorem runParallelAux_get? {α : Type} (tasks : List (ChromeSession → Except String α)) :
    ∀ (m : SessionManager) (index j : Nat),
      (m.runParallelAux tasks index).2.get? j =
        (tasks.get? j).map fun task => (m.runParallelStep task (index + j)).2 := by
  induction tasks with
  | nil => intro m index j; simp [SessionManager.runParallelAux]
  | cons task rest ih =>
      intro m index j
      cases j with
      | zero => simp [SessionManager.runParallelAux]
      | succ j2 =>
          simp only [SessionManager.runParallelAux, List.get?_cons_succ]
          rw [runParallelStep_fst, ih m (index + 1) j2,
            show index + 1 + j2 = index + (j2 + 1) from by omega]

/-- Length of the fan-out outcome list. -/
theorem runParallelAux_length {α : Type} (tasks : List (ChromeSession → Except String α)) :
    ∀ (m : SessionManager) (index : Nat),
      (m.runParallelAux tasks index).2.length = tasks.length := by
  induction tasks with
  | nil => intro m index; rfl
  | cons task rest ih =>
      intro m index
      simp only [SessionManager.runParallelAux, List.length_cons]
      rw [runParallelStep_fst]
      rw [ih m (index + 1)]

/-- `collectResults` succeeds exactly on all-fulfilled outcome lists. -/
theorem collectResults_ok {α : Type} :
    ∀ (rs : List (Except SMError α)) (out : List α),
      collectResults rs = .ok out → rs = out.map Except.ok := by
  intro rs
  induction rs with
  | nil =>
      intro out h
      simp only [collectResults, Except.ok.injEq] at h
      simp [← h]
  | cons r rest ih =>
      intro out h
      cases r with
      | error e => simp [collectResults] at h
      | ok v =>
          simp only [collectResults] at h
          cases hcr : collectResults rest with
          | error e => rw [hcr] at h; simp at h
          | ok vs =>
              rw [hcr] at h
              simp only [Except.ok.injEq] at h
              subst h
              simp [ih vs hcr]

/-- A fulfilled callback outcome means the ephemeral create succeeded and
the task itself returned that value, with the session freshly
constructed as `parallel-<index>`. -/
theorem runParallelStep_ok {α : Type} (m : SessionManager)
    (task : ChromeSession → Except String α) (index : Nat) (v : α)
    (hstep : (m.runParallelStep task index).2 = .ok v) :
    task (mkChromeSession ("parallel-" ++ toString index)) = .ok v := by
  unfold SessionManager.runParallelStep SessionManager.createSession at hstep
  simp only [parallelName_ne_empty] at hstep
  by_cases h : m.hasSession ("parallel-" ++ toString index) = true
  · simp [h] at hstep
  · rw [Bool.not_eq_true] at h
    simp only [h, Bool.false_eq_true, if_neg, ite_false] at hstep
    cases htask : task (mkChromeSession ("parallel-" ++ toString index)) with
    | ok w => simp_all [liftTaskResult]
    | error msg => simp_all [liftTaskResult]

/-- C3: `runParallel` gives each task a freshly constructed ephemeral
session `parallel-<i>` and removes it afterward whatever the task's
outcome — the manager (hence `getSessionCount`) is restored whether the
call succeeds or any task throws — and on success the result list has
one entry per task, with `result[i]` the value returned by `tasks[i]`. -/
theorem runParallel_cleanup_and_alignment {α : Type} :
    ∀ (m : SessionManager) (tasks : List (ChromeSession → Except String α)),
      (m.runParallel tasks).1 = m ∧
      (m.runParallel tasks).1.getSessionCount = m.getSessionCount ∧
      ∀ out, (m.runParallel tasks).2 = .ok out →
        out.length = tasks.length ∧
        ∀ j task, tasks.get? j = some task →
          ∃ v, task (mkChromeSession ("parallel-" ++ toString j)) = .ok v ∧
            out.get? j = some v := by
  intro m tasks
  refine ⟨?_, ?_, ?_⟩
  · simp [SessionManager.runParallel, runParallelAux_fst]
  · simp [SessionManager.runParallel, runParallelAux_fst]
  · intro out hout
    simp only [SessionManager.runParallel] at hout
    have hmap := collectResults_ok _ _ hout
    have hlen : out.length = tasks.length := by
      have hlen2 := congrArg List.length hmap
      rw [runParallelAux_length, List.length_map] at hlen2
      omega
    refine ⟨hlen, ?_⟩
    intro j task htask
    have hget := runParallelAux_get? tasks m 0 j
    rw [hmap, List.get?_map, htask, Nat.zero_add] at hget
    cases hog : out.get? j with
    | none => rw [hog] at hget; simp at hget
    | some v =>
        rw [hog] at hget
        simp only [Option.map_some'] at hget
        exact ⟨v, runParallelStep_ok m task j v (Option.some.inj hget.symm), rfl⟩

/-- Two concrete tasks for the `runParallel` witness. -/
def tasksC3 : List (ChromeSession → Except String String) :=
  [fun s => .ok s.getSessionId, fun _ => .ok "x"]

/-- Witness for `runParallel_cleanup_and_alignment` on a concrete run:
the manager is restored and the success output has one entry per task. -/
theorem runParallel_cleanup_and_alignment_witness :
    (SessionManager.empty.runParallel tasksC3).1 = SessionManager.empty ∧
    ((["parallel-0", "x"] : List String)).length = tasksC3.length :=
  ⟨(runParallel_cleanup_and_alignment SessionManager.empty tasksC3).1,
   ((runParallel_cleanup_and_alignment SessionManager.empty tasksC3).2.2
      ["parallel-0", "x"] rfl).1⟩

/-- C5: `runParallelWithSessions` with mismatched list lengths fails with
the arity-mismatch error and leaves the session map (indeed the whole
manager) unchanged. -/
theorem runParallelWithSessions_arity_mismatch {α : Type} :
    ∀ (m : SessionManager) (sessionNames : List String)
      (tasks : List (ChromeSession → Except String α)),
      sessionNames.length ≠ tasks.length →
      m.runParallelWithSessions sessionNames tasks =
        (m, .error (.arityMismatch sessionNames.length tasks.length)) := by
  intro m sessionNames tasks h
  simp [SessionManager.runParallelWithSessions, h]

/-- Three trivial tasks for the arity-mismatch witness. -/
def tasksC5 : List (ChromeSession → Except String Nat) :=
  [fun _ => .ok 1, fun _ => .ok 2, fun _ => .ok 3]

/-- Witness for `runParallelWithSessions_arity_mismatch`: two names,
three tasks. -/
theorem runParallelWithSessions_arity_mismatch_witness :
    SessionManager.empty.runParallelWithSessions ["a", "b"] tasksC5 =
      (SessionManager.empty, .error (.arityMismatch 2 3)) :=
  runParallelWithSessions_arity_mismatch SessionManager.empty ["a", "b"] tasksC5
    (by decide)

/-- The registry of the C9 scenario: sessions `A` and `B` with tab
handles `111` and `222`. -/
def registryAB : SessionManager :=
  ⟨[("A", (mkChromeSession "A").setTabId 111),
    ("B", (mkChromeSession "B").setTabId 222)], 0⟩

/-- The task reading the session's tab handle. -/
def readTabId : ChromeSession → Except String (Option Int) :=
  fun s => .ok s.getTabId

/-- C9: `runParallelWithSessions (["A", "B"])` with two `readTabId` tasks
returns `[111, 222]` in input order, leaves the manager unchanged, and
afterwards both sessions still exist with their tab handles intact. -/
theorem runParallelWithSessions_preserves_named_sessions :
    registryAB.runParallelWithSessions ["A", "B"] [readTabId, readTabId] =
      (registryAB, .ok [some 111, some 222]) ∧
    (registryAB.runParallelWithSessions ["A", "B"] [readTabId, readTabId]).1.getSession "A" =
      some ((mkChromeSession "A").setTabId 111) ∧
    (registryAB.runParallelWithSessions ["A", "B"] [readTabId, readTabId]).1.getSession "B" =
      some ((mkChromeSession "B").setTabId 222) :=
  ⟨rfl, rfl, rfl⟩

/-- Options carrying explicit zeros for both numeric fields. -/
def optsZero : DialogDetectionOptions :=
  ⟨some 0, some 0, none⟩

/-- Witness for `constructor_zero_options_use_defaults` at the all-zero
options object. -/
theorem constructor_zero_options_use_defaults_witness :
    (mkDialogDetector Nat (some optsZero)).diffThreshold = 1 / 10 ∧
    (mkDialogDetector Nat (some optsZero)).screenshotInterval = 5000 ∧
    (mkDialogDetector Nat none).setDiffThreshold 0 =
      ({ mkDialogDetector Nat none with diffThreshold := 0 }, .ok ()) :=
  ⟨(constructor_zero_options_use_defaults Nat optsZero).1 rfl,
   (constructor_zero_options_use_defaults Nat optsZero).2.1 rfl,
   (constructor_zero_options_use_defaults Nat optsZero).2.2.2 (mkDialogDetector Nat none)⟩
